import Mathlib

/-!
Verification of the `zopieux/makerspace` gauthbox test doubles.

The repository contains two FastAPI test doubles:
  * `src/gauthbox/testing/fake_control.py` — `GET /config/{name}` serving a
    per-tool configuration dictionary, and `POST /auth` returning `{}`;
  * `src/gauthbox/.test/fake_auth.py` — `POST /auth` returning `{}`.

We embed the JSON values these handlers return, the `ToolConfig` data model
of the (absent) controller, and the access state machine described by the
specification, and prove the claimed properties about them.
-/

/-- A JSON value, sufficient for the dictionaries returned by the doubles.
Numbers are integers because every numeric literal in the sources is one. -/
inductive Json where
  | null
  | bool (b : Bool)
  | num (n : Int)
  | str (s : String)
  | arr (elems : List Json)
  | obj (fields : List (String × Json))

/-- First value bound to `key` in an association list, as Python dict lookup
on the literal dictionaries of the sources. -/
def lookupField : List (String × Json) → String → Option Json
  | [], _ => none
  | (k, v) :: rest, key => if k == key then some v else lookupField rest key

/-- Field access on a JSON object; `none` on non-objects or missing keys. -/
def Json.getField : Json → String → Option Json
  | .obj fs, key => lookupField fs key
  | _, _ => none

/-- Follow a path of keys through nested JSON objects. -/
def Json.getPath : Json → List String → Option Json
  | j, [] => some j
  | j, k :: rest =>
    match j.getField k with
    | some v => v.getPath rest
    | none => none

def Json.asInt : Json → Option Int
  | .num n => some n
  | _ => none

def Json.asStr : Json → Option String
  | .str s => some s
  | _ => none

def Json.asBool : Json → Option Bool
  | .bool b => some b
  | _ => none

/-- An HTTP response: status code and JSON body. FastAPI returns status 200
when a handler returns a plain dictionary. -/
structure HttpResponse where
  status : Nat
  body : Json

/-- `2xx` success check for an HTTP response. -/
def HttpResponse.isSuccess (r : HttpResponse) : Bool :=
  200 ≤ r.status && r.status < 300

/-- An HTTP request as far as the `POST /auth` handlers can observe it:
both ignore everything about it (they only print it). -/
structure Request where
  body : String
  headers : List (String × String)

namespace FakeControl

/-- The dictionary returned by `config` in
`src/gauthbox/testing/fake_control.py` for `GET /config/{name}`.
`"...tool=%s&badge=..." % name` is string interpolation of the single `%s`,
embedded as concatenation. -/
def config (name : String) : Json :=
  .obj [
    ("badge_reader", .obj [
      ("name", .str "HID OMNIKEY 5427 CK"),
      ("timeout_ms", .num 200)]),
    ("badge_auth", .obj [
      ("url_template", .str ("http://control.shop:8000/auth?tool=" ++ name ++
        "&badge=\x7b\x7b.badge\x7d\x7d&action=\x7b\x7b.state\x7d\x7d&minutes=\x7b\x7b.duration\x7d\x7d")),
      ("usage_duration_minutes", .num 10)]),
    ("relay", .obj [
      ("pin", .num 21),
      ("active_low", .bool true),
      ("debounce_ms", .num 25)]),
    ("current_sensing", .obj [
      ("pin", .num 23),
      ("active_low", .bool true),
      ("debounce_ms", .num 200)]),
    ("green_led", .obj [
      ("pin", .num 26)]),
    ("red_led", .obj [
      ("pin", .num 20)]),
    ("mqtt", .obj [
      ("broker", .str "mqtt://control.shop:1883"),
      ("topic", .str "shop")]),
    ("idle_duration_s", .num 5)]

/-- The `GET /config/{name}` endpoint: FastAPI wraps the dictionary in a
200 response. -/
def configEndpoint (name : String) : HttpResponse :=
  ⟨200, config name⟩

/-- The `POST /auth` handler of `fake_control.py`: ignores the request
(it only prints it) and returns the empty dictionary, hence 200 and `{}`. -/
def auth (_ : Request) : HttpResponse :=
  ⟨200, .obj []⟩

end FakeControl

namespace FakeAuth

/-- The `POST /auth` handler of `src/gauthbox/.test/fake_auth.py`: ignores
the request (it only prints it) and returns the empty dictionary, hence
200 and `{}`. -/
def auth (_ : Request) : HttpResponse :=
  ⟨200, .obj []⟩

end FakeAuth

/-- The required field paths of the ToolConfig schema (spec §3). -/
def requiredConfigPaths : List (List String) :=
  [["badge_reader", "name"], ["badge_reader", "timeout_ms"],
   ["badge_auth", "url_template"], ["badge_auth", "usage_duration_minutes"],
   ["relay", "pin"], ["relay", "active_low"], ["relay", "debounce_ms"],
   ["current_sensing", "pin"], ["current_sensing", "active_low"],
   ["current_sensing", "debounce_ms"],
   ["green_led", "pin"], ["red_led", "pin"],
   ["mqtt", "broker"], ["mqtt", "topic"],
   ["idle_duration_s"]]

/-- True when every required ToolConfig field path is present in `j`. -/
def hasRequiredConfigFields (j : Json) : Bool :=
  requiredConfigPaths.all (fun p => (j.getPath p).isSome)

/-- Claim C1: for every tool name, `GET /config/{name}` on the control-service
test double returns a JSON object containing every field required by the
ToolConfig schema: badge_reader (name, timeout_ms), badge_auth (url_template,
usage_duration_minutes), relay and current_sensing (pin, active_low,
debounce_ms), green_led and red_led (pin), mqtt (broker, topic), and
idle_duration_s. -/
theorem C1_config_has_required_fields (name : String) :
    (∃ fs, FakeControl.config name = Json.obj fs) ∧
      hasRequiredConfigFields (FakeControl.config name) = true :=
  ⟨⟨_, rfl⟩, rfl⟩

/-- Modelled from the spec: §3 badge_reader section of ToolConfig. The
controller implementation is absent from the repository. -/
structure BadgeReaderCfg where
  name : String
  timeout_ms : Int

/-- Modelled from the spec: §3 badge_auth section of ToolConfig. -/
structure BadgeAuthCfg where
  url_template : String
  usage_duration_minutes : Int

/-- Modelled from the spec: §3 relay / current_sensing sections of
ToolConfig. -/
structure SwitchCfg where
  pin : Int
  active_low : Bool
  debounce_ms : Int

/-- Modelled from the spec: §3 green_led / red_led sections of ToolConfig. -/
structure LedCfg where
  pin : Int

/-- Modelled from the spec: §3 mqtt section of ToolConfig. -/
structure MqttCfg where
  broker : String
  topic : String

/-- Modelled from the spec: §3 ToolConfig, the immutable per-tool
configuration the Config Client loads at startup. -/
structure ToolConfig where
  badge_reader : BadgeReaderCfg
  badge_auth : BadgeAuthCfg
  relay : SwitchCfg
  current_sensing : SwitchCfg
  green_led : LedCfg
  red_led : LedCfg
  mqtt : MqttCfg
  idle_duration_s : Int

/-- Modelled from the spec: §4.3 deserialization of the badge_reader
section; any missing or ill-typed field is a fatal error (`none`). -/
def BadgeReaderCfg.fromJson (j : Json) : Option BadgeReaderCfg := do
  let n ← (j.getField "name").bind Json.asStr
  let t ← (j.getField "timeout_ms").bind Json.asInt
  pure ⟨n, t⟩

/-- Modelled from the spec: §4.3 deserialization of the badge_auth
section. -/
def BadgeAuthCfg.fromJson (j : Json) : Option BadgeAuthCfg := do
  let u ← (j.getField "url_template").bind Json.asStr
  let m ← (j.getField "usage_duration_minutes").bind Json.asInt
  pure ⟨u, m⟩

/-- Modelled from the spec: §4.3 deserialization of the relay and
current_sensing sections. -/
def SwitchCfg.fromJson (j : Json) : Option SwitchCfg := do
  let p ← (j.getField "pin").bind Json.asInt
  let a ← (j.getField "active_low").bind Json.asBool
  let d ← (j.getField "debounce_ms").bind Json.asInt
  pure ⟨p, a, d⟩

/-- Modelled from the spec: §4.3 deserialization of the green_led and
red_led sections. -/
def LedCfg.fromJson (j : Json) : Option LedCfg := do
  let p ← (j.getField "pin").bind Json.asInt
  pure ⟨p⟩

/-- Modelled from the spec: §4.3 deserialization of the mqtt section. -/
def MqttCfg.fromJson (j : Json) : Option MqttCfg := do
  let b ← (j.getField "broker").bind Json.asStr
  let t ← (j.getField "topic").bind Json.asStr
  pure ⟨b, t⟩

/-- Modelled from the spec: §4.3 — the Config Client deserializes the JSON
body of `GET /config/{name}` into ToolConfig, treating any missing or
ill-typed required field as a fatal error (`none`). -/
def ToolConfig.fromJson (j : Json) : Option ToolConfig := do
  let br ← (j.getField "badge_reader").bind BadgeReaderCfg.fromJson
  let ba ← (j.getField "badge_auth").bind BadgeAuthCfg.fromJson
  let re ← (j.getField "relay").bind SwitchCfg.fromJson
  let cs ← (j.getField "current_sensing").bind SwitchCfg.fromJson
  let gl ← (j.getField "green_led").bind LedCfg.fromJson
  let rl ← (j.getField "red_led").bind LedCfg.fromJson
  let mq ← (j.getField "mqtt").bind MqttCfg.fromJson
  let idle ← (j.getField "idle_duration_s").bind Json.asInt
  pure ⟨br, ba, re, cs, gl, rl, mq, idle⟩

/-- Claim C2: the config JSON served by the config-service test double
round-trips: deserializing it into ToolConfig succeeds and yields fields
equal to the literal served values, in particular relay.pin = 21,
relay.active_low = true, relay.debounce_ms = 25, current_sensing.pin = 23,
current_sensing.debounce_ms = 200, idle_duration_s = 5,
usage_duration_minutes = 10, badge_reader.timeout_ms = 200. -/
theorem C2_config_round_trips (name : String) :
    ∃ tc : ToolConfig, ToolConfig.fromJson (FakeControl.config name) = some tc ∧
      tc.relay.pin = 21 ∧ tc.relay.active_low = true ∧ tc.relay.debounce_ms = 25 ∧
      tc.current_sensing.pin = 23 ∧ tc.current_sensing.active_low = true ∧
      tc.current_sensing.debounce_ms = 200 ∧
      tc.idle_duration_s = 5 ∧ tc.badge_auth.usage_duration_minutes = 10 ∧
      tc.badge_reader.timeout_ms = 200 ∧
      tc.badge_reader.name = "HID OMNIKEY 5427 CK" ∧
      tc.green_led.pin = 26 ∧ tc.red_led.pin = 20 ∧
      tc.mqtt.broker = "mqtt://control.shop:1883" ∧ tc.mqtt.topic = "shop" :=
  ⟨_, rfl, rfl, rfl, rfl, rfl, rfl, rfl, rfl, rfl, rfl, rfl, rfl, rfl, rfl, rfl⟩

/-- Claim C3: every POST to `/auth` on the auth test double succeeds (HTTP
200, a success status) and returns an empty JSON object; it never returns a
denial or an error result, regardless of the request's content. -/
theorem C3_auth_double_always_succeeds (r : Request) :
    FakeAuth.auth r = ⟨200, Json.obj []⟩ ∧
      (FakeAuth.auth r).isSuccess = true :=
  ⟨rfl, rfl⟩

/-- `pat` occurs as a contiguous substring of `s`. -/
def strContainsSub (s pat : String) : Prop :=
  ∃ a b : List Char, s.data = a ++ pat.data ++ b

/-- Prepending any string on the left preserves substring containment. -/
theorem strContainsSub_append_left (x : String) {y pat : String}
    (h : strContainsSub y pat) : strContainsSub (x ++ y) pat := by
  obtain ⟨a, b, hy⟩ := h
  exact ⟨x.data ++ a, b, by simp [String.data_append, hy, List.append_assoc]⟩

/-- Claim C5: for every tool name, the badge_auth.url_template string served
by `GET /config/{name}` contains all three placeholders `{{.badge}}`,
`{{.state}}` and `{{.duration}}`, so the controller can substitute all three
before use. -/
theorem C5_url_template_has_placeholders (name : String) :
    ∃ s, (FakeControl.config name).getPath ["badge_auth", "url_template"] =
        some (Json.str s) ∧
      strContainsSub s "\x7b\x7b.badge\x7d\x7d" ∧
      strContainsSub s "\x7b\x7b.state\x7d\x7d" ∧
      strContainsSub s "\x7b\x7b.duration\x7d\x7d" :=
  ⟨_, rfl,
    strContainsSub_append_left _
      ⟨"&badge=".data,
       "&action=\x7b\x7b.state\x7d\x7d&minutes=\x7b\x7b.duration\x7d\x7d".data,
       by decide⟩,
    strContainsSub_append_left _
      ⟨"&badge=\x7b\x7b.badge\x7d\x7d&action=".data,
       "&minutes=\x7b\x7b.duration\x7d\x7d".data,
       by decide⟩,
    strContainsSub_append_left _
      ⟨"&badge=\x7b\x7b.badge\x7d\x7d&action=\x7b\x7b.state\x7d\x7d&minutes=".data,
       "".data,
       by decide⟩⟩

/-- The four configured output/input pins of a config, in schema order:
relay, current_sensing, green_led, red_led. -/
def configPins (j : Json) : List (Option Int) :=
  [(j.getPath ["relay", "pin"]).bind Json.asInt,
   (j.getPath ["current_sensing", "pin"]).bind Json.asInt,
   (j.getPath ["green_led", "pin"]).bind Json.asInt,
   (j.getPath ["red_led", "pin"]).bind Json.asInt]

/-- Claim C6: in every config served by `GET /config/{name}`, the pin values
of relay, current_sensing, green_led and red_led (21, 23, 26, 20) are
pairwise distinct. -/
theorem C6_pins_pairwise_distinct (name : String) :
    configPins (FakeControl.config name) = [some 21, some 23, some 26, some 20] ∧
      (configPins (FakeControl.config name)).Nodup := by
  have h : configPins (FakeControl.config name) =
      [some 21, some 23, some 26, some 20] := rfl
  exact ⟨h, by rw [h]; decide⟩

/-- The config field paths holding durations (milliseconds or seconds). -/
def durationPaths : List (List String) :=
  [["badge_reader", "timeout_ms"], ["relay", "debounce_ms"],
   ["current_sensing", "debounce_ms"], ["idle_duration_s"]]

/-- True when the value at path `p` in `j` is an integer `≥ 0`. -/
def isNonNegNumAt (j : Json) (p : List String) : Bool :=
  match (j.getPath p).bind Json.asInt with
  | some n => decide (0 ≤ n)
  | none => false

/-- Claim C7: in every config served by `GET /config/{name}`, every `*_ms`
and `*_s` value (badge_reader.timeout_ms, relay.debounce_ms,
current_sensing.debounce_ms, idle_duration_s) is a non-negative integer. -/
theorem C7_durations_non_negative (name : String) :
    durationPaths.map
        (fun p => ((FakeControl.config name).getPath p).bind Json.asInt) =
      [some 200, some 25, some 200, some 5] ∧
    durationPaths.all (isNonNegNumAt (FakeControl.config name)) = true :=
  ⟨rfl, rfl⟩

/-- Replace the value of an `url_template` key of a JSON object by `null`;
identity on everything else. -/
def maskBadgeAuth : Json → Json
  | .obj fs => .obj (fs.map (fun p => if p.1 == "url_template" then (p.1, Json.null) else p))
  | j => j

/-- Replace the badge_auth.url_template value of a config object by `null`;
identity on everything else. -/
def maskUrlTemplate : Json → Json
  | .obj fs => .obj (fs.map (fun p => if p.1 == "badge_auth" then (p.1, maskBadgeAuth p.2) else p))
  | j => j

/-- Claim C8: the response of `GET /config/{name}` depends on the path
parameter only through badge_auth.url_template: that field equals the fixed
prefix `http://control.shop:8000/auth?tool=` followed by the name followed
by the fixed suffix `&badge={{.badge}}&action={{.state}}&minutes={{.duration}}`,
and after masking that one field any two served configs are identical. -/
theorem C8_name_only_in_url_template (n₁ n₂ : String) :
    (FakeControl.config n₁).getPath ["badge_auth", "url_template"] =
      some (Json.str ("http://control.shop:8000/auth?tool=" ++ n₁ ++
        "&badge=\x7b\x7b.badge\x7d\x7d&action=\x7b\x7b.state\x7d\x7d&minutes=\x7b\x7b.duration\x7d\x7d")) ∧
    maskUrlTemplate (FakeControl.config n₁) = maskUrlTemplate (FakeControl.config n₂) :=
  ⟨rfl, rfl⟩

/-- Modelled from the spec: §4.6 — the states of the Access State Machine.
The controller implementation is absent from the repository. -/
inductive AccessState where
  | idle
  | authorizing
  | active
  | deauthorizing
deriving DecidableEq

/-- Modelled from the spec: §3 AccessSession, the mutable session state
owned exclusively by the Access State Machine. -/
structure AccessSession where
  badge_id : Option String
  authorized_until : Option Nat
  last_activity : Nat
  relay_energized : Bool
deriving DecidableEq

/-- Modelled from the spec: §4.6/§5 — the whole controller state: machine
state, session, the Relay Driver's last commanded logical state, and the
two LEDs. -/
structure Controller where
  state : AccessState
  session : AccessSession
  relayOut : Bool
  greenLed : Bool
  redLed : Bool
deriving DecidableEq

/-- Modelled from the spec: §4.6/§5 — the discrete events delivered to the
state machine: badge scans, Auth Client outcomes, current-sensing edges,
timer fires, and completion of the best-effort stop notification. Each
carries the wall-clock time of delivery. -/
inductive Event where
  | badgeScan (badge : String) (now : Nat)
  | authSuccess (deadline : Nat) (now : Nat)
  | authDenied (now : Nat)
  | authNetError (now : Nat)
  | currentSense (now : Nat)
  | idleTimeout (now : Nat)
  | deadlineReached (now : Nat)
  | stopDone (now : Nat)

/-- Modelled from the spec: §4.2 — the Relay Driver's `set`: commands the
physical output and updates `AccessSession.relay_energized` in the same
step, so the two are never allowed to diverge. -/
def relaySet (c : Controller) (e : Bool) : Controller :=
  { c with relayOut := e, session := { c.session with relay_energized := e } }

/-- Modelled from the spec: §4.6 — one transition of the Access State
Machine. A badge scan while Idle starts authorization; success energizes
the relay and enters Active; denial or network error returns to Idle
without energizing; any of explicit stop, idle timeout or deadline expiry
leaves Active for Deauthorizing, de-energizing the relay immediately on
entry; Deauthorizing returns to Idle unconditionally once the best-effort
stop notification has been attempted. Any other event leaves the state
unchanged. -/
def step (c : Controller) (e : Event) : Controller :=
  match c.state, e with
  | .idle, .badgeScan b _ =>
      { c with
          state := .authorizing
          session := { c.session with badge_id := some b } }
  | .authorizing, .authSuccess deadline now =>
      let c' := relaySet c true
      { c' with
          state := .active
          greenLed := true
          redLed := false
          session := { c'.session with
            authorized_until := some deadline
            last_activity := now } }
  | .authorizing, .authDenied _ =>
      { c with
          state := .idle
          greenLed := false
          redLed := true
          session := { c.session with badge_id := none } }
  | .authorizing, .authNetError _ =>
      { c with
          state := .idle
          greenLed := false
          redLed := true
          session := { c.session with badge_id := none } }
  | .active, .currentSense now =>
      { c with session := { c.session with last_activity := now } }
  | .active, .badgeScan _ _ => relaySet { c with state := .deauthorizing } false
  | .active, .idleTimeout _ => relaySet { c with state := .deauthorizing } false
  | .active, .deadlineReached _ => relaySet { c with state := .deauthorizing } false
  | .deauthorizing, .stopDone _ =>
      { c with
          state := .idle
          greenLed := false
          redLed := true
          session := { c.session with
            badge_id := none
            authorized_until := none } }
  | _, _ => c

/-- Modelled from the spec: §3/§4.6 — controller start: Idle, empty
session, relay off, red LED on. -/
def initController : Controller :=
  { state := .idle
    session := { badge_id := none
                 authorized_until := none
                 last_activity := 0
                 relay_energized := false }
    relayOut := false
    greenLed := false
    redLed := true }

/-- The controller state after a sequence of events from startup. -/
def run (evs : List Event) : Controller :=
  evs.foldl step initController

/-- The safety invariant of §5/§8: the Relay Driver's commanded state agrees
with `AccessSession.relay_energized`, and the relay is energized exactly in
the `Active` state. -/
def relayInv (c : Controller) : Prop :=
  c.relayOut = c.session.relay_energized ∧
    (c.session.relay_energized = true ↔ c.state = AccessState.active)

/-- Every single transition preserves the relay invariant. -/
theorem relayInv_step (c : Controller) (e : Event) (h : relayInv c) :
    relayInv (step c e) := by
  obtain ⟨h1, h2⟩ := h
  cases e <;> cases hs : c.state <;>
    simp_all [step, relaySet, relayInv]

/-- The relay invariant holds along any run from an invariant state. -/
theorem relayInv_foldl :
    ∀ (evs : List Event) (c : Controller), relayInv c →
      relayInv (evs.foldl step c)
  | [], _, h => h
  | e :: evs, c, h => relayInv_foldl evs (step c e) (relayInv_step c e h)

/-- Claim C4: at every observable instant of the access state machine (after
any event sequence from startup), the relay is energized exactly when the
state is Active — in particular never while Idle — and the Relay Driver's
commanded state always matches `AccessSession.relay_energized`. -/
theorem C4_relay_matches_state (evs : List Event) :
    (run evs).relayOut = (run evs).session.relay_energized ∧
    ((run evs).session.relay_energized = true ↔
      (run evs).state = AccessState.active) ∧
    ((run evs).state = AccessState.idle →
      (run evs).session.relay_energized = false) := by
  have h : relayInv (run evs) :=
    relayInv_foldl evs initController ⟨rfl, by decide⟩
  obtain ⟨h1, h2⟩ := h
  refine ⟨h1, h2, fun hidle => ?_⟩
  cases hb : (run evs).session.relay_energized
  · rfl
  · have hact := h2.mp hb
    rw [hidle] at hact
    exact absurd hact (by decide)

/-- A request to the control-service double: either `GET /config/{name}` or
`POST /auth` with an arbitrary body and headers. -/
inductive ControlReq where
  | configGet (name : String)
  | authPost (r : Request)

/-- True exactly for `POST /auth` requests. -/
def ControlReq.isAuthCall : ControlReq → Bool
  | .authPost _ => true
  | .configGet _ => false

/-- Request dispatch of the control-service double: a pure function of the
request, since neither handler reads or writes any module-level mutable
state. -/
def FakeControl.handle : ControlReq → HttpResponse
  | .configGet n => FakeControl.configEndpoint n
  | .authPost r => FakeControl.auth r

/-- Responses of the control-service double to a sequence of requests. -/
def FakeControl.serve (rs : List ControlReq) : List HttpResponse :=
  rs.map FakeControl.handle

/-- Claim C9: both test-double endpoints are deterministic and stateless:
the response at any position of a request sequence is a function of that
request alone (surrounding calls and call order are irrelevant), two
`GET /config/{name}` calls with the same name return identical responses,
any two `POST /auth` calls return identical responses independent of body
and headers, and the same holds for the auth-service double. -/
theorem C9_handlers_deterministic_stateless (pre suf : List ControlReq)
    (r₁ r₂ : ControlReq)
    (h : (∃ n, r₁ = ControlReq.configGet n ∧ r₂ = ControlReq.configGet n) ∨
      (r₁.isAuthCall = true ∧ r₂.isAuthCall = true)) :
    FakeControl.serve (pre ++ r₁ :: suf) =
      FakeControl.serve pre ++ FakeControl.handle r₁ :: FakeControl.serve suf ∧
    FakeControl.handle r₁ = FakeControl.handle r₂ ∧
    (∀ q₁ q₂ : Request, FakeAuth.auth q₁ = FakeAuth.auth q₂) := by
  refine ⟨by simp [FakeControl.serve], ?_, fun q₁ q₂ => rfl⟩
  rcases h with ⟨n, hn₁, hn₂⟩ | ⟨ha₁, ha₂⟩
  · rw [hn₁, hn₂]
  · cases r₁ <;> cases r₂ <;>
      simp_all [ControlReq.isAuthCall, FakeControl.handle, FakeControl.auth]

/-- Concrete instance of C9: a config request surrounded by differing auth
requests, and two auth requests with different bodies and headers. -/
theorem C9_handlers_deterministic_stateless_witness :
    (FakeControl.serve
        ([ControlReq.authPost ⟨"body-a", [("x", "1")]⟩] ++
          ControlReq.authPost ⟨"body-b", []⟩ :: [ControlReq.configGet "saw"]) =
      FakeControl.serve [ControlReq.authPost ⟨"body-a", [("x", "1")]⟩] ++
        FakeControl.handle (ControlReq.authPost ⟨"body-b", []⟩) ::
          FakeControl.serve [ControlReq.configGet "saw"] ∧
    FakeControl.handle (ControlReq.authPost ⟨"body-b", []⟩) =
      FakeControl.handle (ControlReq.authPost ⟨"other", [("y", "2")]⟩) ∧
    (∀ q₁ q₂ : Request, FakeAuth.auth q₁ = FakeAuth.auth q₂)) :=
  C9_handlers_deterministic_stateless
    [ControlReq.authPost ⟨"body-a", [("x", "1")]⟩] [ControlReq.configGet "saw"]
    (ControlReq.authPost ⟨"body-b", []⟩) (ControlReq.authPost ⟨"other", [("y", "2")]⟩)
    (Or.inr ⟨rfl, rfl⟩)

/-- Claim C10: the `POST /auth` handler of the control-service double and
the `POST /auth` handler of the auth-service double are observationally
equivalent: for every request both return the same result, an empty JSON
object with HTTP success status 200. -/
theorem C10_auth_handlers_equivalent (r : Request) :
    FakeControl.auth r = FakeAuth.auth r ∧
    FakeControl.auth r = ⟨200, Json.obj []⟩ ∧
    (FakeControl.auth r).isSuccess = true :=
  ⟨rfl, rfl, rfl⟩
